import Mathlib

/-!
Verification of the `spinlock-rs` crate (`src/spinlock.rs`).

The lock's observable state is two atomic booleans (`is_locked`,
`is_poisoned`) and the protected value held in an `UnsafeCell`.  All
atomic operations in the source use `Ordering::SeqCst`, so the program's
concurrent behaviour is a sequence of interleaved atomic steps; we embed
each operation as a pure function on the state below, and on top of that
a labelled transition system whose steps are exactly the atomic
operations, to reason about arbitrary interleavings of contexts.
-/

/-- State of `Spinlock<T>` (src/spinlock.rs, lines 3-7): the two atomic
flags and the protected value stored in the `UnsafeCell`. -/
structure Spinlock (α : Type) where
  is_locked : Bool
  is_poisoned : Bool
  data : α
  deriving Repr, DecidableEq

namespace Spinlock

/-- `Spinlock::new` (lines 10-16): both flags start false. -/
def new (t : α) : Spinlock α :=
  { is_locked := false, is_poisoned := false, data := t }

/-- `AtomicBool::test_and_set` via `swap(true, SeqCst)` (lines 261-263):
returns the old value and stores `true`. -/
def test_and_set (b : Bool) : Bool × Bool := (b, true)

/-- `Spinlock::raw_try_lock` (lines 94-96): one test-and-set on
`is_locked`; returns the negation of the old value, the flag is `true`
afterwards in every case. -/
def raw_try_lock (s : Spinlock α) : Bool × Spinlock α :=
  let r := test_and_set s.is_locked
  (!r.1, { s with is_locked := r.2 })

/-- Result of `Spinlock::lock` (`std::sync::LockResult`): the guard
itself carries no data beyond its back-reference, so only the
constructor matters. -/
inductive LockResult where
  | ok
  | poisonErr
  deriving Repr, DecidableEq

/-- Result of `Spinlock::try_lock` (`std::sync::TryLockResult`). -/
inductive TryLockResult where
  | ok
  | poisonErr
  | wouldBlock
  deriving Repr, DecidableEq

/-- `Spinlock::try_lock` (lines 32-46): a single `raw_try_lock`; on
failure return `WouldBlock` (the state is unchanged: the swap wrote
`true` over `true`), otherwise construct the guard and wrap it in a
`PoisonError` exactly when `is_poisoned` reads true. -/
def try_lock (s : Spinlock α) : TryLockResult × Spinlock α :=
  let r := raw_try_lock s
  if !r.1 then
    (.wouldBlock, r.2)
  else if r.2.is_poisoned then
    (.poisonErr, r.2)
  else
    (.ok, r.2)

/-- `Spinlock::lock` (lines 20-30) with `raw_lock` (lines 90-92):
`raw_lock` repeats `raw_try_lock` until it succeeds.  In an isolated
context no other step can clear `is_locked`, so the spin terminates
exactly when the lock is free at entry; `none` denotes the
still-spinning (divergent) case. -/
def lock (s : Spinlock α) : Option (LockResult × Spinlock α) :=
  if s.is_locked then
    none
  else
    let s2 := (raw_try_lock s).2
    if s2.is_poisoned then some (.poisonErr, s2) else some (.ok, s2)

/-- `Spinlock::into_inner` (lines 52-78): disassemble the lock without
touching the locking protocol and yield the value, wrapped in a
`PoisonError` when `is_poisoned` reads true.  `Except`'s error branch
carries the value, as `PoisonError::new(inner)` does. -/
def into_inner (s : Spinlock α) : Except α α :=
  if s.is_poisoned then .error s.data else .ok s.data

/-- `Spinlock::get_mut` (lines 80-88): direct projection to the value
through the exclusive reference, wrapped in a `PoisonError` when
`is_poisoned` reads true. -/
def get_mut (s : Spinlock α) : Except α α :=
  if s.is_poisoned then .error s.data else .ok s.data

end Spinlock

namespace SpinlockGuard

/-- `UnsafeCell::get` on the lock a live guard refers to
(`self.spinlock.data.get()`, lines 164 and 173): the raw pointer is
derived from a reference to the `data` field of a live `Spinlock`, so it
is never null; `as_ref`/`as_mut` on it yields `Some` of the value. -/
def dataPtr (s : Spinlock α) : Option α := some s.data

/-- `SpinlockGuard::deref` (lines 160-168): project through the data
pointer, panicking (the `.error` branch) if it were null. -/
def deref (s : Spinlock α) : Except String α :=
  match dataPtr s with
  | some v => .ok v
  | none => .error "data ptr is null"

/-- `SpinlockGuard::deref_mut` (lines 171-178): same projection through
`as_mut`. -/
def deref_mut (s : Spinlock α) : Except String α :=
  match dataPtr s with
  | some v => .ok v
  | none => .error "data ptr is null"

/-- `SpinlockGuard::drop` (lines 194-205): if the current context is
unwinding from a panic (`std::thread::panicking()`, passed here as the
argument `panicking`), first store `true` into `is_poisoned`; then
`raw_unlock` (lines 98-100) unconditionally clears `is_locked`. -/
def drop (panicking : Bool) (s : Spinlock α) : Spinlock α :=
  let s1 := if panicking then { s with is_poisoned := true } else s
  { s1 with is_locked := false }

end SpinlockGuard

namespace Spinlock

/-- Rendering of `debug_struct("Spinlock").field("data", x).finish()`
(lines 126-128, 130-132, 144-146). -/
def debugStruct (field : String) : String :=
  "Spinlock \x7b data: " ++ field ++ " \x7d"

/-- `impl Debug for Spinlock` (lines 123-149): one `try_lock`; on `Ok`
render the value through the guard, on `Poisoned` render the value
through the guard inside the error, on `WouldBlock` render the
`<locked>` placeholder.  In the first two branches the guard is dropped
at the end of the arm (formatting itself is not an unwind, so the drop
runs with `panicking = false`); `renderT` is the `Debug`
implementation of the protected type. -/
def debugFmt (renderT : α → String) (s : Spinlock α) : String × Spinlock α :=
  match try_lock s with
  | (.ok, s2) => (debugStruct (renderT s2.data), SpinlockGuard.drop false s2)
  | (.poisonErr, s2) => (debugStruct (renderT s2.data), SpinlockGuard.drop false s2)
  | (.wouldBlock, s2) => (debugStruct "<locked>", s2)

end Spinlock

/-!
Labelled transition system over interleavings.  Every atomic operation
of the source is one step; `guards` counts the `SpinlockGuard` values
currently alive (each successful `lock`/`try_lock` constructs one, each
`Drop::drop` destroys one).
-/

/-- Global state: the lock plus the number of live guards. -/
structure SysState (α : Type) where
  lk : Spinlock α
  guards : Nat
  deriving Repr, DecidableEq

/-- Labels of the atomic steps any context may take. -/
inductive SysLabel where
  | acquire
  | tryFail
  | dropGuard (panicking : Bool)
  deriving Repr, DecidableEq

/-- One atomic step of some context: a successful test-and-set (the
success path shared by `lock` and `try_lock`, which then constructs a
guard), a failed `raw_try_lock` (which leaves the state unchanged and
constructs nothing), or a guard's `drop`. -/
inductive Step {α : Type} : SysState α → SysLabel → SysState α → Prop where
  | acquire (s : SysState α) (h : s.lk.is_locked = false) :
      Step s .acquire ⟨(Spinlock.raw_try_lock s.lk).2, s.guards + 1⟩
  | tryFail (s : SysState α) (h : s.lk.is_locked = true) :
      Step s .tryFail ⟨(Spinlock.raw_try_lock s.lk).2, s.guards⟩
  | dropGuard (s : SysState α) (p : Bool) (h : 1 ≤ s.guards) :
      Step s (.dropGuard p) ⟨SpinlockGuard.drop p s.lk, s.guards - 1⟩

/-- States reachable from a freshly constructed lock by any interleaving
of atomic steps. -/
inductive Reachable {α : Type} : SysState α → Prop where
  | init (t : α) : Reachable ⟨Spinlock.new t, 0⟩
  | step {s s2 : SysState α} {l : SysLabel} :
      Reachable s → Step s l s2 → Reachable s2

lemma step_inv {α : Type} {s s2 : SysState α} {l : SysLabel}
    (hs : s.guards ≤ 1 ∧ (s.lk.is_locked = true ↔ s.guards = 1))
    (h : Step s l s2) :
    s2.guards ≤ 1 ∧ (s2.lk.is_locked = true ↔ s2.guards = 1) := by
  obtain ⟨h1, h2⟩ := hs
  cases h with
  | acquire h =>
      have hg : s.guards = 0 := by
        by_contra hne
        have hone : s.guards = 1 := by omega
        have := h2.mpr hone
        simp [h] at this
      simp [Spinlock.raw_try_lock, Spinlock.test_and_set, hg]
  | tryFail h =>
      have hg : s.guards = 1 := h2.mp h
      simp [Spinlock.raw_try_lock, Spinlock.test_and_set, hg]
  | dropGuard p h =>
      have hg : s.guards = 1 := by omega
      refine ⟨?_, ?_⟩
      · show s.guards - 1 ≤ 1
        omega
      · show (SpinlockGuard.drop p s.lk).is_locked = true ↔ s.guards - 1 = 1
        simp [SpinlockGuard.drop]
        omega

/-- C1: across any interleaving of lock/try_lock acquisitions and guard
destructions by any number of contexts, at most one guard derived from a
given lock is alive at any instant, and `is_locked` is true exactly
while that guard is alive (no missed or double releases). -/
theorem c1_mutual_exclusion {α : Type} (s : SysState α) (h : Reachable s) :
    s.guards ≤ 1 ∧ (s.lk.is_locked = true ↔ s.guards = 1) := by
  induction h with
  | init t => simp [Spinlock.new]
  | step hr hstep ih => exact step_inv ih hstep

/-- Witness for C1 at the state reached by constructing `new 0` and
performing one successful acquisition. -/
theorem c1_mutual_exclusion_witness :
    (⟨(Spinlock.raw_try_lock (Spinlock.new (0 : Nat))).2, 0 + 1⟩ : SysState Nat).guards ≤ 1 ∧
      ((⟨(Spinlock.raw_try_lock (Spinlock.new (0 : Nat))).2, 0 + 1⟩ : SysState Nat).lk.is_locked = true ↔
        (⟨(Spinlock.raw_try_lock (Spinlock.new (0 : Nat))).2, 0 + 1⟩ : SysState Nat).guards = 1) :=
  c1_mutual_exclusion _
    (Reachable.step (Reachable.init 0) (Step.acquire ⟨Spinlock.new 0, 0⟩ rfl))

/-- C2: `lock` spins (diverges, `none`) exactly while `is_locked` is
true and no other step intervenes; once it can transition `is_locked`
from false to true it never fails: it returns the acquired guard, in a
poison error precisely when `is_poisoned` is true at acquisition, and
`Ok` otherwise. -/
theorem c2_lock_spec {α : Type} (s : Spinlock α) :
    (s.is_locked = true → Spinlock.lock s = none) ∧
    (s.is_locked = false →
      Spinlock.lock s =
        some ((if s.is_poisoned then .poisonErr else .ok),
          { s with is_locked := true })) := by
  refine ⟨fun h => by simp [Spinlock.lock, h], fun h => ?_⟩
  cases hp : s.is_poisoned <;>
    simp [Spinlock.lock, h, hp, Spinlock.raw_try_lock, Spinlock.test_and_set]

/-- Witness for C2: a held lock spins; a free poisoned lock acquires and
reports poison. -/
theorem c2_lock_spec_witness :
    Spinlock.lock (⟨true, false, (0 : Nat)⟩ : Spinlock Nat) = none ∧
    Spinlock.lock (⟨false, true, (5 : Nat)⟩ : Spinlock Nat) =
      some (.poisonErr, ⟨true, true, 5⟩) :=
  ⟨(c2_lock_spec ⟨true, false, 0⟩).1 rfl, by
    have h := (c2_lock_spec (⟨false, true, (5 : Nat)⟩ : Spinlock Nat)).2 rfl
    simpa using h⟩

/-- C3: a guard's destruction first sets `is_poisoned` when the context
is unwinding from a panic, and then clears `is_locked` unconditionally,
on every destruction path; the protected value is untouched. -/
theorem c3_guard_drop_spec {α : Type} (panicking : Bool) (s : Spinlock α) :
    (SpinlockGuard.drop panicking s).is_locked = false ∧
    (SpinlockGuard.drop panicking s).is_poisoned = (s.is_poisoned || panicking) ∧
    (SpinlockGuard.drop panicking s).data = s.data := by
  cases panicking <;> simp [SpinlockGuard.drop]

/-- C4: the poison flag is monotonic.  `is_poisoned` and `get_mut` do
not write any flag (they are pure reads in the embedding); for each
state-changing operation (`try_lock`, `lock`, guard drop, `Debug`
formatting), a poisoned input yields a poisoned output state, and a
subsequent `lock` on a free poisoned lock still succeeds but reports the
poisoned state. -/
theorem c4_poison_monotonic {α : Type} (s : Spinlock α) (renderT : α → String)
    (panicking : Bool) (hp : s.is_poisoned = true) :
    (Spinlock.try_lock s).2.is_poisoned = true ∧
    Option.map (fun rs => rs.2.is_poisoned) (Spinlock.lock s) ≠ some false ∧
    (SpinlockGuard.drop panicking s).is_poisoned = true ∧
    (Spinlock.debugFmt renderT s).2.is_poisoned = true ∧
    (s.is_locked = false →
      Spinlock.lock s = some (.poisonErr, { s with is_locked := true })) := by
  refine ⟨?_, ?_, ?_, ?_, ?_⟩
  · cases h : s.is_locked <;>
      simp [Spinlock.try_lock, Spinlock.raw_try_lock, Spinlock.test_and_set, h, hp]
  · cases h : s.is_locked <;>
      simp [Spinlock.lock, Spinlock.raw_try_lock, Spinlock.test_and_set, h, hp]
  · cases panicking <;> simp [SpinlockGuard.drop, hp]
  · cases h : s.is_locked <;>
      simp [Spinlock.debugFmt, Spinlock.try_lock, Spinlock.raw_try_lock,
        Spinlock.test_and_set, SpinlockGuard.drop, h, hp]
  · intro h
    simp [Spinlock.lock, Spinlock.raw_try_lock, Spinlock.test_and_set, h, hp]

/-- Witness for C4 at a free poisoned lock over `Nat`. -/
theorem c4_poison_monotonic_witness :
    (Spinlock.try_lock (⟨false, true, (0 : Nat)⟩ : Spinlock Nat)).2.is_poisoned = true ∧
    Option.map (fun rs => rs.2.is_poisoned)
      (Spinlock.lock (⟨false, true, (0 : Nat)⟩ : Spinlock Nat)) ≠ some false ∧
    (SpinlockGuard.drop false (⟨false, true, (0 : Nat)⟩ : Spinlock Nat)).is_poisoned = true ∧
    (Spinlock.debugFmt toString (⟨false, true, (0 : Nat)⟩ : Spinlock Nat)).2.is_poisoned = true ∧
    Spinlock.lock (⟨false, true, (0 : Nat)⟩ : Spinlock Nat) =
      some (.poisonErr, ⟨true, true, 0⟩) := by
  have h := c4_poison_monotonic (⟨false, true, (0 : Nat)⟩ : Spinlock Nat) toString false rfl
  exact ⟨h.1, h.2.1, h.2.2.1, h.2.2.2.1, h.2.2.2.2 rfl⟩

/-- C5: `try_lock` performs exactly one test-and-set: on a held lock it
returns `WouldBlock` with the state unchanged; otherwise it acquires the
lock and returns `Ok` when `is_poisoned` is false and a poison error
carrying the guard when it is true. -/
theorem c5_try_lock_spec {α : Type} (s : Spinlock α) :
    Spinlock.try_lock s =
      if s.is_locked then (.wouldBlock, s)
      else ((if s.is_poisoned then .poisonErr else .ok),
        { s with is_locked := true }) := by
  cases s with
  | mk l pz d =>
      cases l <;> cases pz <;>
        simp [Spinlock.try_lock, Spinlock.raw_try_lock, Spinlock.test_and_set]

/-- C6: `into_inner` on a freshly constructed lock round-trips the value
(`Ok v`), and on a poisoned lock returns the value wrapped in the poison
error rather than discarding it. -/
theorem c6_into_inner_spec {α : Type} (v : α) (s : Spinlock α)
    (hp : s.is_poisoned = true) :
    Spinlock.into_inner (Spinlock.new v) = .ok v ∧
    Spinlock.into_inner s = .error s.data :=
  ⟨by simp [Spinlock.into_inner, Spinlock.new], by simp [Spinlock.into_inner, hp]⟩

/-- Witness for C6: round-trip at `7`, poisoned consumption at `3`. -/
theorem c6_into_inner_spec_witness :
    Spinlock.into_inner (Spinlock.new (7 : Nat)) = .ok 7 ∧
    Spinlock.into_inner (⟨false, true, (3 : Nat)⟩ : Spinlock Nat) = .error 3 :=
  c6_into_inner_spec 7 (⟨false, true, 3⟩ : Spinlock Nat) rfl

/-- C7: `try_lock` on a held lock returns `WouldBlock` and is a no-op on
the state: `is_poisoned` and `is_locked` both read the same after the
call as before. -/
theorem c7_try_lock_held_frame {α : Type} (s : Spinlock α)
    (h : s.is_locked = true) :
    Spinlock.try_lock s = (.wouldBlock, s) ∧
    (Spinlock.try_lock s).2.is_poisoned = s.is_poisoned ∧
    (Spinlock.try_lock s).2.is_locked = s.is_locked := by
  cases s with
  | mk l pz d =>
      cases l with
      | false => cases h
      | true =>
          simp [Spinlock.try_lock, Spinlock.raw_try_lock, Spinlock.test_and_set]

/-- Witness for C7 at a held, unpoisoned lock. -/
theorem c7_try_lock_held_frame_witness :
    Spinlock.try_lock (⟨true, false, (0 : Nat)⟩ : Spinlock Nat) =
      (.wouldBlock, ⟨true, false, 0⟩) ∧
    (Spinlock.try_lock (⟨true, false, (0 : Nat)⟩ : Spinlock Nat)).2.is_poisoned =
      (⟨true, false, (0 : Nat)⟩ : Spinlock Nat).is_poisoned ∧
    (Spinlock.try_lock (⟨true, false, (0 : Nat)⟩ : Spinlock Nat)).2.is_locked =
      (⟨true, false, (0 : Nat)⟩ : Spinlock Nat).is_locked :=
  c7_try_lock_held_frame (⟨true, false, 0⟩ : Spinlock Nat) rfl

/-- C8 counterexample: after a successful acquisition inside `Debug`
formatting, a poisoned lock renders exactly like the unpoisoned lock
over the same value — the output carries no poison note, refuting
"noting poison when the lock is poisoned". -/
theorem c8_debug_poison_not_noted :
    (Spinlock.debugFmt toString (⟨false, true, (0 : Nat)⟩ : Spinlock Nat)).1 =
      (Spinlock.debugFmt toString (⟨false, false, (0 : Nat)⟩ : Spinlock Nat)).1 ∧
    (Spinlock.debugFmt toString (⟨false, true, (0 : Nat)⟩ : Spinlock Nat)).1 =
      "Spinlock \x7b data: 0 \x7d" ∧
    (⟨false, true, (0 : Nat)⟩ : Spinlock Nat).is_poisoned = true :=
  ⟨rfl, rfl, rfl⟩

/-- C8 (amended): `Debug` formatting performs one non-blocking
`try_lock`; if the lock is free it renders the protected value — with no
poison note, identically whether or not the lock is poisoned — and if
the lock is held it renders the `<locked>` placeholder instead of the
value; in every case the lock's state is left exactly as found. -/
theorem c8_debug_fmt_spec {α : Type} (renderT : α → String) (s : Spinlock α) :
    (Spinlock.debugFmt renderT s).1 =
      (if s.is_locked then Spinlock.debugStruct "<locked>"
       else Spinlock.debugStruct (renderT s.data)) ∧
    (Spinlock.debugFmt renderT s).2 = s := by
  cases s with
  | mk l pz d =>
      cases l <;> cases pz <;>
        simp [Spinlock.debugFmt, Spinlock.try_lock, Spinlock.raw_try_lock,
          Spinlock.test_and_set, SpinlockGuard.drop]

/-- C9: guard dereference (shared and mutable) cannot fail: the data
pointer of a live lock is never null, so the panic branch is unreachable
and both projections return the stored value. -/
theorem c9_deref_total {α : Type} (s : Spinlock α) :
    SpinlockGuard.deref s = .ok s.data ∧
    SpinlockGuard.deref_mut s = .ok s.data :=
  ⟨rfl, rfl⟩

/-- C10: when `lock` or `try_lock` returns a poison error, the lock has
nevertheless been acquired: the returned state has `is_locked = true`
and the error carries the guard; in the transition system, the only
step that takes `is_locked` from true to false is a guard's drop, and
dropping the carried guard (for instance when the error is discarded)
does clear `is_locked`. -/
theorem c10_poison_error_holds_lock {α : Type} (s : Spinlock α)
    (hl : s.is_locked = false) (hp : s.is_poisoned = true) (p : Bool)
    {st st2 : SysState α} {l : SysLabel} (hstep : Step st l st2)
    (_hheld : st.lk.is_locked = true) (hrel : st2.lk.is_locked = false) :
    Spinlock.try_lock s = (.poisonErr, { s with is_locked := true }) ∧
    Spinlock.lock s = some (.poisonErr, { s with is_locked := true }) ∧
    (SpinlockGuard.drop p { s with is_locked := true }).is_locked = false ∧
    (∃ q : Bool, l = .dropGuard q) := by
  refine ⟨?_, ?_, ?_, ?_⟩
  · simp [Spinlock.try_lock, Spinlock.raw_try_lock, Spinlock.test_and_set, hl, hp]
  · simp [Spinlock.lock, Spinlock.raw_try_lock, Spinlock.test_and_set, hl, hp]
  · simp [SpinlockGuard.drop]
  · cases hstep with
    | acquire h =>
        exfalso
        simp [Spinlock.raw_try_lock, Spinlock.test_and_set] at hrel
    | tryFail h =>
        exfalso
        simp [Spinlock.raw_try_lock, Spinlock.test_and_set] at hrel
    | dropGuard q h => exact ⟨q, rfl⟩

/-- Witness for C10: a free poisoned lock over `Nat`, and the drop step
of the carried guard from the held poisoned state. -/
theorem c10_poison_error_holds_lock_witness :
    Spinlock.try_lock (⟨false, true, (0 : Nat)⟩ : Spinlock Nat) =
      (.poisonErr, ⟨true, true, 0⟩) ∧
    Spinlock.lock (⟨false, true, (0 : Nat)⟩ : Spinlock Nat) =
      some (.poisonErr, ⟨true, true, 0⟩) ∧
    (SpinlockGuard.drop false (⟨true, true, (0 : Nat)⟩ : Spinlock Nat)).is_locked = false ∧
    (∃ q : Bool, SysLabel.dropGuard false = SysLabel.dropGuard q) := by
  have h := c10_poison_error_holds_lock (⟨false, true, (0 : Nat)⟩ : Spinlock Nat)
    rfl rfl false
    (Step.dropGuard (⟨⟨true, true, (0 : Nat)⟩, 1⟩ : SysState Nat) false (by decide))
    rfl rfl
  exact ⟨h.1, h.2.1, h.2.2.1, h.2.2.2⟩
